import Mathlib

/-!
Shallow embedding of the interactive graph explorer of the OrgMind repository
(`src/frontend/src/components/graph/graph-viewer.tsx`), together with theorems
settling the specification's claims about its state model, layout, viewport
and fetch protocol.

JavaScript numbers are modelled as exact rationals (for viewport state, where
every operation stays rational) and as real numbers (for the trigonometric
layout).  JavaScript objects keyed by strings are modelled as association
lists.  React `useState` cells are gathered into one explicit record,
`ComponentState`, and every event handler becomes a pure function on it.
-/

namespace OrgMind

/-- A graph node as consumed by the viewer: `{ id, type, label, properties }`
(shape from the spec's data model and the component's usage; `properties` is a
string-keyed mapping whose values the component only displays). -/
structure GraphNode where
  id : String
  type : String
  label : String
  properties : List (String × String)
deriving DecidableEq

/-- A graph edge: `{ id, source, target, type }`. -/
structure GraphEdge where
  id : String
  source : String
  target : String
  type : String
deriving DecidableEq

/-- The payload shape returned by `api.graph.get` and held in the component's
`graphData` state: `{ nodes: [...], edges: [...] }`. -/
structure GraphData where
  nodes : List GraphNode
  edges : List GraphEdge
deriving DecidableEq

/-- The `useState` cells of `GraphViewer` (graph-viewer.tsx lines 36-43),
gathered into one record.  `scale`, `position` and `dragStart` are the
viewport state; `position` is the pan offset of the render transform. -/
structure ComponentState where
  graphData : GraphData
  loading : Bool
  error : Option String
  selectedNode : Option GraphNode
  scale : ℚ
  position : ℚ × ℚ
  isDragging : Bool
  dragStart : ℚ × ℚ

/-- The initial state of the component: empty graph, 100% zoom, origin offset
(the initial values passed to `useState` on lines 36-43). -/
def initialState : ComponentState :=
  { graphData := { nodes := [], edges := [] }
    loading := false
    error := none
    selectedNode := none
    scale := 1
    position := (0, 0)
    isDragging := false
    dragStart := (0, 0) }

/-- The synchronous prefix of `loadGraph` (lines 46-49), run when a fetch is
issued, before the `await`: `setLoading(true); setError(null)`. -/
def loadGraphStart (s : ComponentState) : ComponentState :=
  { s with loading := true, error := none }

/-- The continuation of `loadGraph` run when the fetch settles (lines 50-56):
on success `setGraphData(data)` REPLACES the held graph with the payload; on
failure `setError(message)`; in both cases `finally setLoading(false)`. -/
def loadGraphSettle (s : ComponentState) (res : Except String GraphData) :
    ComponentState :=
  match res with
  | Except.ok d => { s with graphData := d, loading := false }
  | Except.error m => { s with error := some m, loading := false }

/-- A neighborhood request issued against `api.graph.get`. -/
structure FetchRequest where
  nodeId : String
  depth : ℕ

/-- `handleNodeDoubleClick` (lines 97-99): calls `loadGraph(node.id)` with the
default depth 2, so it runs the synchronous prefix and issues the request. -/
def handleNodeDoubleClick (s : ComponentState) (node : GraphNode) :
    ComponentState × FetchRequest :=
  (loadGraphStart s, { nodeId := node.id, depth := 2 })

/-- `handleZoomIn` (line 65): `setScale(s => Math.min(s * 1.2, 3))`. -/
def handleZoomIn (s : ComponentState) : ComponentState :=
  { s with scale := min (s.scale * (12 / 10)) 3 }

/-- `handleZoomOut` (line 66): `setScale(s => Math.max(s / 1.2, 0.3))`. -/
def handleZoomOut (s : ComponentState) : ComponentState :=
  { s with scale := max (s.scale / (12 / 10)) (3 / 10) }

/-- `handleFit` (lines 67-70): scale back to 1, offset back to the origin. -/
def handleFit (s : ComponentState) : ComponentState :=
  { s with scale := 1, position := (0, 0) }

/-- `handleMouseDown` (lines 72-77): when the event targets the canvas,
start dragging and record `dragStart = client - position`; otherwise do
nothing.  `client` is the mouse point `(e.clientX, e.clientY)`. -/
def handleMouseDown (s : ComponentState) (client : ℚ × ℚ) (hitCanvas : Bool) :
    ComponentState :=
  if hitCanvas then
    { s with isDragging := true
             dragStart := (client.1 - s.position.1, client.2 - s.position.2) }
  else s

/-- `handleMouseMove` (lines 79-86): while dragging, set
`position = client - dragStart`; otherwise a no-op. -/
def handleMouseMove (s : ComponentState) (client : ℚ × ℚ) : ComponentState :=
  if s.isDragging then
    { s with position := (client.1 - s.dragStart.1, client.2 - s.dragStart.2) }
  else s

/-- `handleMouseUp` (lines 88-90): stop dragging. -/
def handleMouseUp (s : ComponentState) : ComponentState :=
  { s with isDragging := false }

/-- The position `calculateNodePositions` (lines 102-121) assigns to the node
at index `i` of a node array of length `n`, for a container of size `w × h`:
angle `2π i / n` on the circle of radius `min w h * 0.3` centered at
`(w / 2, h / 2)`. -/
noncomputable def nodePosition (i n : ℕ) (w h : ℝ) : ℝ × ℝ :=
  (w / 2 + (min w h * 0.3) * Real.cos ((2 * Real.pi * i) / n),
   h / 2 + (min w h * 0.3) * Real.sin ((2 * Real.pi * i) / n))

/-- `calculateNodePositions` (lines 102-121): recomputed from scratch on every
render, it assigns every node of the CURRENT node array a position determined
only by its index and the total node count.  The JavaScript record keyed by
node id is modelled as an association list in node order. -/
noncomputable def calculateNodePositions (g : GraphData) (w h : ℝ) :
    List (String × (ℝ × ℝ)) :=
  g.nodes.enum.map fun p => (p.2.id, nodePosition p.1 g.nodes.length w h)

/-- The edges the render pass actually draws (lines 184-187): an edge is
skipped when either endpoint has no entry in `nodePositions`. -/
noncomputable def renderedEdges (g : GraphData) (w h : ℝ) : List GraphEdge :=
  g.edges.filter fun e =>
    ((calculateNodePositions g w h).lookup e.source).isSome &&
      ((calculateNodePositions g w h).lookup e.target).isSome

/-- `getConnectedNodes` (lines 125-129): every edge whose `source` or `target`
is `nodeId` contributes its opposite endpoint, in edge order, via
`filter` then `map`; there is no deduplication. -/
def getConnectedNodes (g : GraphData) (nodeId : String) : List String :=
  (g.edges.filter fun e => e.source == nodeId || e.target == nodeId).map
    fun e => if e.source == nodeId then e.target else e.source

/-- One zoom toolbar action: the zoom-in or the zoom-out button. -/
inductive ZoomOp where
  | zin : ZoomOp
  | zout : ZoomOp

/-- Apply one zoom toolbar action to the component state. -/
def applyZoomOp (s : ComponentState) : ZoomOp → ComponentState
  | ZoomOp.zin => handleZoomIn s
  | ZoomOp.zout => handleZoomOut s

/-- The CSS `translate(${position.x}px, ${position.y}px)` step of the render
transform (line 179). -/
def cssTranslate (t p : ℚ × ℚ) : ℚ × ℚ :=
  (p.1 + t.1, p.2 + t.2)

/-- The CSS `scale(${scale})` step of the render transform (line 179). -/
def cssScale (k : ℚ) (p : ℚ × ℚ) : ℚ × ℚ :=
  (k * p.1, k * p.2)

/-- The render transform (lines 176-181): the canvas layer carries
`transform: translate(position) scale(scale)`, which CSS composes so a layer
point `p` lands on screen at `scale * p + position`.  This is the `toScreen`
map of the viewport. -/
def renderTransform (s : ComponentState) (p : ℚ × ℚ) : ℚ × ℚ :=
  cssTranslate s.position (cssScale s.scale p)

/-- Modelled from the spec: `toGraph(screenPoint) = (screenPoint − offset) /
scale`, the inverse viewport map.  The source renders through the CSS
transform and hit-tests through DOM event targets, so no explicit inverse
function exists in the source; this definition follows the spec's formula. -/
def toGraph (s : ComponentState) (q : ℚ × ℚ) : ℚ × ℚ :=
  ((q.1 - s.position.1) / s.scale, (q.2 - s.position.2) / s.scale)

/-- Spec-side reformulation of the connected-node query, written the way the
spec describes it, by direct recursion over the edge sequence: any edge where
`source == nodeId` yields `target`, any edge where `target == nodeId` yields
`source`, in discovery order.  (The spec additionally asserts duplicates
collapse; no collapsing appears here because the code has none — that
difference is settled by the counterexample.) -/
def neighborsSpec (nodeId : String) : List GraphEdge → List String
  | [] => []
  | e :: es =>
    if e.source = nodeId then e.target :: neighborsSpec nodeId es
    else if e.target = nodeId then e.source :: neighborsSpec nodeId es
    else neighborsSpec nodeId es

/-! Concrete fixtures used by counterexamples and witnesses. -/

/-- A concrete node with id `n1`. -/
def n1 : GraphNode := { id := "n1", type := "user", label := "Node 1", properties := [] }

/-- A concrete node with id `n2`. -/
def n2 : GraphNode := { id := "n2", type := "user", label := "Node 2", properties := [] }

/-- A concrete node with id `n3`. -/
def n3 : GraphNode := { id := "n3", type := "task", label := "Node 3", properties := [] }

/-- A concrete edge `e1` from `n1` to `n2`. -/
def e1 : GraphEdge := { id := "e1", source := "n1", target := "n2", type := "relates" }

/-- A concrete edge `e2` from `n1` to the never-delivered id `n99`. -/
def e2 : GraphEdge := { id := "e2", source := "n1", target := "n99", type := "relates" }

/-- A second concrete edge between `n1` and `n2` (a multi-edge mate of `e1`). -/
def e3 : GraphEdge := { id := "e3", source := "n1", target := "n2", type := "mentions" }

/-- A concrete self-loop edge on `n1`. -/
def e4 : GraphEdge := { id := "e4", source := "n1", target := "n1", type := "self" }

/-- A component state already holding the two-node, one-edge graph. -/
def sTwoNodes : ComponentState :=
  { initialState with graphData := { nodes := [n1, n2], edges := [e1] } }

/-- A lookup in a string-keyed association list succeeds exactly when the key
occurs among the stored keys. -/
theorem lookup_isSome_iff {β : Type} (a : String) (l : List (String × β)) :
    (l.lookup a).isSome = true ↔ a ∈ l.map Prod.fst := by
  induction l with
  | nil => simp [List.lookup]
  | cons p t ih =>
    obtain ⟨k, b⟩ := p
    by_cases hk : a = k
    · subst hk
      simp [List.lookup]
    · have hbeq : (a == k) = false := by simp [hk]
      simp [List.lookup, hbeq, hk, ih]

/-- The keys of the computed position map are exactly the ids of the current
node array, in order. -/
theorem calculateNodePositions_keys (g : GraphData) (w h : ℝ) :
    (calculateNodePositions g w h).map Prod.fst = g.nodes.map GraphNode.id := by
  unfold calculateNodePositions
  rw [List.map_map]
  have : (Prod.fst ∘ fun p : ℕ × GraphNode =>
      (p.2.id, nodePosition p.1 g.nodes.length w h)) =
      GraphNode.id ∘ Prod.snd := rfl
  rw [this, ← List.map_map, List.enum_map_snd]

/-- C1 (amended): a double-click expand issues the fetch without any reset,
but applying its result REPLACES the canonical graph with the fetched payload
wholesale — afterwards the held graph equals the payload, so a node survives
the expand exactly when it occurs in the payload, not because it was present
before. -/
theorem expand_replaces_graph (s : ComponentState) (node : GraphNode)
    (d : GraphData) :
    (loadGraphSettle (handleNodeDoubleClick s node).1 (Except.ok d)).graphData = d ∧
    ∀ nd : GraphNode,
      nd ∈ (loadGraphSettle (handleNodeDoubleClick s node).1
        (Except.ok d)).graphData.nodes ↔ nd ∈ d.nodes := by
  constructor
  · rfl
  · intro nd
    rfl

/-- C1 is false as stated: starting from the canonical graph `{n1, n2; e1}`,
expanding `n1` with a payload that lacks `n2` and `e1` removes both, so the
canonical graph does not only grow. -/
theorem expand_not_additive_counterexample :
    n2 ∈ sTwoNodes.graphData.nodes ∧ e1 ∈ sTwoNodes.graphData.edges ∧
    n2 ∉ (loadGraphSettle (handleNodeDoubleClick sTwoNodes n1).1
      (Except.ok { nodes := [n1, n3], edges := [] })).graphData.nodes ∧
    e1 ∉ (loadGraphSettle (handleNodeDoubleClick sTwoNodes n1).1
      (Except.ok { nodes := [n1, n3], edges := [] })).graphData.edges := by
  refine ⟨by decide, by decide, by decide, by decide⟩

/-- C2 (amended): the endpoint invariant holds only of the RENDER pass, not of
the store: every edge the render pass draws has both endpoints among the ids
of the held node array (the pass skips edges with a missing position entry,
and position entries exist exactly for held node ids). -/
theorem renderedEdges_endpoints (g : GraphData) (w h : ℝ) (e : GraphEdge)
    (he : e ∈ renderedEdges g w h) :
    e.source ∈ g.nodes.map GraphNode.id ∧ e.target ∈ g.nodes.map GraphNode.id := by
  unfold renderedEdges at he
  rw [List.mem_filter, Bool.and_eq_true] at he
  obtain ⟨-, hs, ht⟩ := he
  constructor
  · have h1 := (lookup_isSome_iff e.source _).mp hs
    rwa [calculateNodePositions_keys] at h1
  · have h1 := (lookup_isSome_iff e.target _).mp ht
    rwa [calculateNodePositions_keys] at h1

/-- Witness for the amended C2 theorem at the concrete two-node graph. -/
theorem renderedEdges_endpoints_witness :
    e1.source ∈ (GraphData.mk [n1, n2] [e1]).nodes.map GraphNode.id ∧
    e1.target ∈ (GraphData.mk [n1, n2] [e1]).nodes.map GraphNode.id :=
  renderedEdges_endpoints (GraphData.mk [n1, n2] [e1]) 800 600 e1 (by decide)

/-- C2 is false as stated: applying a payload holding the dangling edge `e2`
(whose target `n99` is never delivered as a node) STORES `e2` in the canonical
`graphData.edges` rather than dropping it. -/
theorem dangling_edge_stored_counterexample :
    e2 ∈ (loadGraphSettle (loadGraphStart initialState)
      (Except.ok { nodes := [n1], edges := [e2] })).graphData.edges ∧
    "n99" ∉ (loadGraphSettle (loadGraphStart initialState)
      (Except.ok { nodes := [n1], edges := [e2] })).graphData.nodes.map
        GraphNode.id := by
  refine ⟨by decide, by decide⟩

/-- C3 (amended): `calculateNodePositions` derives a node's position from its
index in the CURRENT node array and the CURRENT node count alone (plus the
container size), so an entry of the position map is unchanged across an
application of fetched data whenever the node keeps its index and the total
count is unchanged; an application that changes the count recomputes every
position and can move existing nodes, as the counterexample shows. -/
theorem layout_stable_at_fixed_index (g g' : GraphData) (w h : ℝ) (i : ℕ)
    (hlen : g.nodes.length = g'.nodes.length)
    (hid : g.nodes[i]?.map GraphNode.id = g'.nodes[i]?.map GraphNode.id) :
    (calculateNodePositions g w h)[i]? = (calculateNodePositions g' w h)[i]? := by
  unfold calculateNodePositions
  rw [List.getElem?_map, List.getElem?_map, List.getElem?_enum,
    List.getElem?_enum, hlen]
  cases hg : g.nodes[i]? with
  | none =>
    rw [hg] at hid
    cases hg2 : g'.nodes[i]? with
    | none => simp
    | some b => rw [hg2] at hid; exact absurd hid (by simp)
  | some a =>
    rw [hg] at hid
    cases hg2 : g'.nodes[i]? with
    | none => rw [hg2] at hid; exact absurd hid (by simp)
    | some b =>
      rw [hg2] at hid
      have hab : a.id = b.id := by
        simpa using hid
      simp [hab]

/-- Witness for the amended C3 theorem: two two-node graphs agreeing at index
0 get the same position entry there. -/
theorem layout_stable_at_fixed_index_witness :
    (calculateNodePositions (GraphData.mk [n1, n2] []) 800 600)[0]? =
      (calculateNodePositions (GraphData.mk [n1, n3] []) 800 600)[0]? :=
  layout_stable_at_fixed_index (GraphData.mk [n1, n2] [])
    (GraphData.mk [n1, n3] []) 800 600 0 (by decide) (by decide)

/-- The two positions the layout gives the node at index 1 before and after
the node count grows from 2 to 3 have different first coordinates:
`400 + 180·cos π = 220` against `400 + 180·cos (2π/3) = 310`. -/
theorem nodePosition_moves :
    (nodePosition 1 2 800 600).1 ≠ (nodePosition 1 3 800 600).1 := by
  unfold nodePosition
  have hmin : min (800 : ℝ) 600 = 600 := by norm_num
  have h2 : ((2 : ℝ) * Real.pi * ((1 : ℕ) : ℝ)) / ((2 : ℕ) : ℝ) = Real.pi := by
    push_cast
    ring
  have h3 : ((2 : ℝ) * Real.pi * ((1 : ℕ) : ℝ)) / ((3 : ℕ) : ℝ) =
      Real.pi - Real.pi / 3 := by
    push_cast
    ring
  simp only [hmin, h2, h3, Real.cos_pi, Real.cos_pi_sub, Real.cos_pi_div_three]
  norm_num

/-- C3 is false as stated: applying a fetched payload that adds `n3` to the
two-node canonical graph moves the already-present node `n2` — its position
map entry before the application differs from its entry afterwards. -/
theorem layout_not_stable_counterexample :
    (calculateNodePositions sTwoNodes.graphData 800 600).lookup "n2" ≠
      (calculateNodePositions (loadGraphSettle (loadGraphStart sTwoNodes)
        (Except.ok { nodes := [n1, n2, n3], edges := [e1] })).graphData
        800 600).lookup "n2" := by
  have hL : (calculateNodePositions sTwoNodes.graphData 800 600).lookup "n2" =
      some (nodePosition 1 2 800 600) := by
    simp [sTwoNodes, initialState, calculateNodePositions, List.enum,
      List.enumFrom, List.lookup, n1, n2, e1]
  have hR : (calculateNodePositions (loadGraphSettle (loadGraphStart sTwoNodes)
      (Except.ok { nodes := [n1, n2, n3], edges := [e1] })).graphData
      800 600).lookup "n2" = some (nodePosition 1 3 800 600) := by
    simp [sTwoNodes, initialState, loadGraphStart, loadGraphSettle,
      calculateNodePositions, List.enum, List.enumFrom, List.lookup, n1, n2, n3, e1]
  rw [hL, hR]
  intro hcontra
  exact nodePosition_moves (congrArg Prod.fst (Option.some_inj.mp hcontra))

/-- C4 (amended): `loadGraph` carries no generation counter or cancellation,
so every successful response is applied unconditionally when it settles:
after any sequence of response arrivals the canonical graph equals the
LAST-ARRIVED payload — including when that response belongs to a superseded
request. -/
theorem response_last_arrival_wins (s : ComponentState) (ds : List GraphData) :
    (ds.foldl (fun st d => loadGraphSettle st (Except.ok d)) s).graphData =
      ds.getLast?.getD s.graphData := by
  induction ds generalizing s with
  | nil => rfl
  | cons d t ih =>
    rw [List.foldl_cons, ih]
    cases t with
    | nil => rfl
    | cons d2 t2 =>
      rw [List.getLast?_cons_cons]
      have hsome : (d2 :: t2).getLast?.isSome := by
        rw [List.getLast?_isSome]
        simp
      cases h2 : (d2 :: t2).getLast? with
      | none => rw [h2] at hsome; cases hsome
      | some x => simp [h2]

/-- C4 is false as stated: two fetches overlap — `r1` (payload `{n1}`) is
issued, then `r2` (payload `{n3}`) supersedes it; `r2`'s response arrives
first, then `r1`'s stale response arrives and IS applied, leaving the
canonical graph equal to the superseded payload `{n1}`, not `{n3}`. -/
theorem stale_response_applied_counterexample :
    (loadGraphSettle (loadGraphSettle (loadGraphStart (loadGraphStart
      sTwoNodes)) (Except.ok (GraphData.mk [n3] [])))
      (Except.ok (GraphData.mk [n1] []))).graphData = GraphData.mk [n1] [] ∧
    GraphData.mk [n1] [] ≠ GraphData.mk [n3] [] := by
  refine ⟨rfl, by decide⟩

/-- A component state with a non-trivial viewport: 200% zoom, offset (5, 7). -/
def sViewport : ComponentState :=
  { initialState with scale := 2, position := (5, 7) }

/-- C5: the render transform `translate(position) scale(scale)` sends the
layer point `p` to `p * scale + position`, and the spec's inverse `toGraph`
recovers `p` exactly whenever `scale > 0` (numbers modelled as exact
rationals, so the floating-point tolerance is met exactly). -/
theorem toGraph_renderTransform_roundtrip (s : ComponentState) (p : ℚ × ℚ)
    (h : 0 < s.scale) :
    renderTransform s p =
      (p.1 * s.scale + s.position.1, p.2 * s.scale + s.position.2) ∧
    toGraph s (renderTransform s p) = p := by
  have hne : s.scale ≠ 0 := ne_of_gt h
  constructor
  · unfold renderTransform cssTranslate cssScale
    rw [Prod.ext_iff]
    constructor
    · dsimp only
      ring
    · dsimp only
      ring
  · unfold toGraph renderTransform cssTranslate cssScale
    rw [Prod.ext_iff]
    constructor
    · dsimp only
      field_simp
    · dsimp only
      field_simp

/-- Witness for the C5 round-trip at zoom 2, offset (5, 7), point (3, 4). -/
theorem toGraph_renderTransform_roundtrip_witness :
    renderTransform sViewport (3, 4) =
      ((3, 4).1 * sViewport.scale + sViewport.position.1,
        (3, 4).2 * sViewport.scale + sViewport.position.2) ∧
    toGraph sViewport (renderTransform sViewport (3, 4)) = (3, 4) :=
  toGraph_renderTransform_roundtrip sViewport (3, 4) (by decide)

/-- `getConnectedNodes`, restricted to any edge list, agrees with the
spec-side per-edge recursion: the filter-then-map of the source equals the
one-pass recursion yielding the opposite endpoint of each touching edge. -/
theorem filter_map_eq_neighborsSpec (nodeId : String) (es : List GraphEdge) :
    (es.filter fun e => e.source == nodeId || e.target == nodeId).map
      (fun e => if e.source == nodeId then e.target else e.source) =
      neighborsSpec nodeId es := by
  induction es with
  | nil => rfl
  | cons e t ih =>
    simp only [beq_iff_eq] at ih
    by_cases hs : e.source = nodeId
    · simp [List.filter_cons, hs, neighborsSpec, ih]
    · by_cases ht : e.target = nodeId
      · simp [List.filter_cons, hs, ht, neighborsSpec, ih]
      · simp [List.filter_cons, hs, ht, neighborsSpec, ih]

/-- C6 (amended): the connected-node query returns, in edge-discovery order,
the opposite endpoint of EACH edge touching the node — one entry per touching
edge, duplicates from multi-edges NOT collapsed (it agrees with the per-edge
spec recursion); on the single-edge scenario graph it returns `["n2"]`. -/
theorem getConnectedNodes_per_edge (g : GraphData) (nodeId : String) :
    getConnectedNodes g nodeId = neighborsSpec nodeId g.edges ∧
    getConnectedNodes (GraphData.mk [n1, n2] [e1]) "n1" = ["n2"] := by
  constructor
  · exact filter_map_eq_neighborsSpec nodeId g.edges
  · decide

/-- C6 is false as stated: with the multi-edges `e1` and `e3` both joining
`n1` and `n2`, the query for `n1` returns `["n2", "n2"]` — the duplicate is
not collapsed to a single neighbor id. -/
theorem multi_edge_not_collapsed_counterexample :
    getConnectedNodes (GraphData.mk [n1, n2] [e1, e3]) "n1" = ["n2", "n2"] ∧
    getConnectedNodes (GraphData.mk [n1, n2] [e1, e3]) "n1" ≠ ["n2"] := by
  refine ⟨by decide, by decide⟩

/-- C7: `handleZoomIn` sets the scale to `min (scale * 1.2) 3` and
`handleZoomOut` to `max (scale / 1.2) 0.3`; starting anywhere in
`[0.3, 3]` (the initial scale is 1), every sequence of zoom actions keeps the
scale in `[0.3, 3]`, and three zoom-ins from scale 1 give `1.2³ = 216/125 =
1.728`. -/
theorem zoom_clamped (s : ComponentState) (ops : List ZoomOp)
    (h : s.scale ∈ Set.Icc (3 / 10 : ℚ) 3) :
    (handleZoomIn s).scale = min (s.scale * (12 / 10)) 3 ∧
    (handleZoomOut s).scale = max (s.scale / (12 / 10)) (3 / 10) ∧
    (ops.foldl applyZoomOp s).scale ∈ Set.Icc (3 / 10 : ℚ) 3 ∧
    (handleZoomIn (handleZoomIn (handleZoomIn (handleFit s)))).scale =
      216 / 125 := by
  refine ⟨rfl, rfl, ?_, by simp [handleZoomIn, handleFit]; norm_num [min_def]⟩
  induction ops generalizing s with
  | nil => exact h
  | cons op t ih =>
    rw [List.foldl_cons]
    apply ih
    rw [Set.mem_Icc] at h ⊢
    obtain ⟨hlo, hhi⟩ := h
    cases op with
    | zin =>
      show 3 / 10 ≤ min (s.scale * (12 / 10)) 3 ∧ min (s.scale * (12 / 10)) 3 ≤ 3
      constructor
      · apply le_min
        · linarith
        · norm_num
      · exact min_le_right _ _
    | zout =>
      show 3 / 10 ≤ max (s.scale / (12 / 10)) (3 / 10) ∧
        max (s.scale / (12 / 10)) (3 / 10) ≤ 3
      constructor
      · exact le_max_right _ _
      · apply max_le
        · have hd : s.scale / (12 / 10 : ℚ) = s.scale * (10 / 12) := by ring
          rw [hd]
          linarith
        · norm_num

/-- Witness for C7: three zoom-ins from the initial state stay clamped. -/
theorem zoom_clamped_witness :
    (([ZoomOp.zin, ZoomOp.zin, ZoomOp.zin]).foldl applyZoomOp
      initialState).scale ∈ Set.Icc (3 / 10 : ℚ) 3 :=
  (zoom_clamped initialState [ZoomOp.zin, ZoomOp.zin, ZoomOp.zin]
    (by rw [Set.mem_Icc]; constructor <;> norm_num [initialState])).2.2.1

/-- C8: the drag gesture is the two-state machine the spec describes —
a canvas mouse-down starts dragging and records
`dragStart = client − position` (leaving the offset untouched), a mouse-move
while dragging sets `position = client − dragStart`, a mouse-move while not
dragging changes nothing at all, and mouse-up stops dragging without moving
the offset. -/
theorem pan_state_machine (s : ComponentState) (p : ℚ × ℚ) :
    (handleMouseDown s p true).isDragging = true ∧
    (handleMouseDown s p true).dragStart =
      (p.1 - s.position.1, p.2 - s.position.2) ∧
    (handleMouseDown s p true).position = s.position ∧
    (s.isDragging = true → (handleMouseMove s p).position =
      (p.1 - s.dragStart.1, p.2 - s.dragStart.2)) ∧
    (s.isDragging = false → handleMouseMove s p = s) ∧
    (handleMouseUp s).isDragging = false ∧
    (handleMouseUp s).position = s.position := by
  refine ⟨rfl, rfl, rfl, ?_, ?_, rfl, rfl⟩
  · intro hd
    simp [handleMouseMove, hd]
  · intro hd
    simp [handleMouseMove, hd]

/-- Witness for C8: a concrete drag (down at (10, 20), move to (25, 40))
pans by the recorded anchor, and a move in the idle initial state is a
no-op. -/
theorem pan_state_machine_witness :
    (handleMouseMove (handleMouseDown initialState (10, 20) true)
        (25, 40)).position =
      ((25, 40).1 - (handleMouseDown initialState (10, 20) true).dragStart.1,
        (25, 40).2 - (handleMouseDown initialState (10, 20) true).dragStart.2) ∧
    handleMouseMove initialState (7, 8) = initialState := by
  constructor
  · exact (pan_state_machine (handleMouseDown initialState (10, 20) true)
      (25, 40)).2.2.2.1 rfl
  · exact (pan_state_machine initialState (7, 8)).2.2.2.2.1 rfl

/-- C9: a failed fetch leaves the canonical graph — and hence the positions
computed from it — exactly as before the call; it only records the inline
error message and clears the loading flag, and the viewport (scale, offset)
is untouched. -/
theorem fetch_failure_preserves_state (s : ComponentState) (m : String)
    (w h : ℝ) :
    (loadGraphSettle (loadGraphStart s) (Except.error m)).graphData =
      s.graphData ∧
    calculateNodePositions (loadGraphSettle (loadGraphStart s)
      (Except.error m)).graphData w h =
      calculateNodePositions s.graphData w h ∧
    (loadGraphSettle (loadGraphStart s) (Except.error m)).error = some m ∧
    (loadGraphSettle (loadGraphStart s) (Except.error m)).loading = false ∧
    (loadGraphSettle (loadGraphStart s) (Except.error m)).scale = s.scale ∧
    (loadGraphSettle (loadGraphStart s) (Except.error m)).position =
      s.position :=
  ⟨rfl, rfl, rfl, rfl, rfl, rfl⟩

/-- Among the neighbor entries produced for `nodeId`, the occurrences of
`nodeId` itself are in bijection with the self-loop edges: the filter-map of
the source yields `nodeId` once per edge whose two endpoints both equal
`nodeId`. -/
theorem count_self_neighbors (nodeId : String) (es : List GraphEdge) :
    ((es.filter fun e => e.source == nodeId || e.target == nodeId).map
      fun e => if e.source == nodeId then e.target else e.source).count
        nodeId =
      (es.filter fun e => e.source == nodeId && e.target == nodeId).length := by
  induction es with
  | nil => rfl
  | cons e t ih =>
    simp only [beq_iff_eq] at ih
    by_cases hs : e.source = nodeId
    · by_cases ht : e.target = nodeId
      · simp [List.filter_cons, hs, ht, List.count_cons, ih]
      · simp [List.filter_cons, hs, ht, List.count_cons, ih]
    · by_cases ht : e.target = nodeId
      · simp [List.filter_cons, hs, ht, List.count_cons, ih]
      · simp [List.filter_cons, hs, ht, ih]

/-- C10: a node with a self-loop edge is reported as its own neighbor by
`getConnectedNodes` — the filter keeps the self-loop and the map yields its
target, i.e. the node itself — and it appears exactly once per self-loop
edge. -/
theorem self_loop_own_neighbor (g : GraphData) (nodeId : String)
    (e : GraphEdge) (he : e ∈ g.edges) (hs : e.source = nodeId)
    (ht : e.target = nodeId) :
    nodeId ∈ getConnectedNodes g nodeId ∧
    (getConnectedNodes g nodeId).count nodeId =
      (g.edges.filter fun e2 =>
        e2.source == nodeId && e2.target == nodeId).length := by
  constructor
  · unfold getConnectedNodes
    apply List.mem_map.mpr
    refine ⟨e, List.mem_filter.mpr ⟨he, by simp [hs]⟩, by simp [hs, ht]⟩
  · exact count_self_neighbors nodeId g.edges

/-- Witness for C10 at the concrete self-loop graph `{n1; e4}`. -/
theorem self_loop_own_neighbor_witness :
    "n1" ∈ getConnectedNodes (GraphData.mk [n1] [e4]) "n1" ∧
    (getConnectedNodes (GraphData.mk [n1] [e4]) "n1").count "n1" =
      ((GraphData.mk [n1] [e4]).edges.filter fun e2 =>
        e2.source == "n1" && e2.target == "n1").length :=
  self_loop_own_neighbor (GraphData.mk [n1] [e4]) "n1" e4 (by decide)
    (by decide) (by decide)

end OrgMind
